import Mathlib

/-!
Verification of the omnistore authentication core.

This file embeds, in Lean, the parts of the repository that its
specification describes: the exception classes
(`apps/api/src/exceptions/*.ts`), the `MatchField` validator
(`apps/api/src/utils/validators/match-field.validator.ts`), and the
token/guard pipeline (`TokenService`, `EncryptionService`, `AuthGuard`,
`RolesGuard`).  The service and guard sources are not present in the
checkout (only their documentation is), so those components are modelled
from the specification, as marked in each doc comment.  Cryptographic
primitives are modelled symbolically: a ciphertext records the key and the
fresh IV it was produced with, and a signature records the signing key and
the payload it covers, so that decryption and verification succeed exactly
when the keys match and the payload is untampered.
-/

namespace Omnistore

/-! ## HTTP status codes (`@nestjs/common` HttpStatus, as used by the code) -/

namespace HttpStatus

def BAD_REQUEST : Nat := 400

def UNAUTHORIZED : Nat := 401

def FORBIDDEN : Nat := 403

def NOT_FOUND : Nat := 404

def NOT_ACCEPTABLE : Nat := 406

def UNPROCESSABLE_ENTITY : Nat := 422

def TOO_MANY_REQUESTS : Nat := 429

def INTERNAL_SERVER_ERROR : Nat := 500

def SERVICE_UNAVAILABLE : Nat := 503

end HttpStatus

/-! ## Exception classes (`apps/api/src/exceptions/`) -/

/-- The `message` argument of `AppException<K, V>`: either a plain string or
a field-error record `Record<K, V>` (modelled as a list of key/value pairs). -/
inductive ExcMessage (K V : Type) where
  | str (s : String)
  | record (fields : List (K × V))
deriving DecidableEq, Repr

/-- The `IAppError` options type of `app.exception.ts`: both fields are
optional (`code?: string; status?: number`). -/
structure IAppError where
  code : Option String
  status : Option Nat
deriving DecidableEq, Repr

/-- The response body passed to `HttpException.super` in `app.exception.ts`:
`{ message: message, code: code }`. -/
structure ResponseBody (K V : Type) where
  message : ExcMessage K V
  code : String
deriving DecidableEq, Repr

/-- The observable state of a constructed `AppException<K, V>`: the response
body and the HTTP status it was built with. -/
structure AppExceptionVal (K V : Type) where
  message : ExcMessage K V
  code : String
  status : Nat
deriving DecidableEq, Repr

/-- The response body of an exception, as `HttpException` exposes it. -/
def AppExceptionVal.body {K V : Type} (e : AppExceptionVal K V) :
    ResponseBody K V :=
  ⟨e.message, e.code⟩

/-- The `AppException` constructor: destructures its options with defaults
`code = 'InternalServerError'` and `status = HttpStatus.INTERNAL_SERVER_ERROR`,
then packs `{message, code}` as the body together with the status. -/
def appException {K V : Type} (message : ExcMessage K V)
    (error : IAppError) : AppExceptionVal K V :=
  { message := message
    code := error.code.getD "InternalServerError"
    status := error.status.getD HttpStatus.INTERNAL_SERVER_ERROR }

/-- `AppException` constructed with the default `= {}` options object. -/
def appExceptionDefault {K V : Type} (message : ExcMessage K V) :
    AppExceptionVal K V :=
  appException message ⟨none, none⟩

/-- `unauthenticated.exception.ts`: code `'Unauthenticated'`, status
`HttpStatus.UNAUTHORIZED`. -/
def unauthenticatedException {K V : Type} (message : ExcMessage K V) :
    AppExceptionVal K V :=
  appException message ⟨some "Unauthenticated", some HttpStatus.UNAUTHORIZED⟩

/-- `unauthorized.exception.ts`: code `'Unauthorized'`, status
`HttpStatus.FORBIDDEN`. -/
def unauthorizedException {K V : Type} (message : ExcMessage K V) :
    AppExceptionVal K V :=
  appException message ⟨some "Unauthorized", some HttpStatus.FORBIDDEN⟩

/-- `forbidden.exception.ts`: code `'Forbidden'`, status
`HttpStatus.FORBIDDEN`. -/
def forbiddenException {K V : Type} (message : ExcMessage K V) :
    AppExceptionVal K V :=
  appException message ⟨some "Forbidden", some HttpStatus.FORBIDDEN⟩

/-- `not-found.exception.ts`: code `'NotFound'`, status
`HttpStatus.NOT_FOUND`. -/
def notFoundException {K V : Type} (message : ExcMessage K V) :
    AppExceptionVal K V :=
  appException message ⟨some "NotFound", some HttpStatus.NOT_FOUND⟩

/-- `throttler.exception.ts`: code `'ThrottlerException'`, status
`HttpStatus.TOO_MANY_REQUESTS`. -/
def throttlerException {K V : Type} (message : ExcMessage K V) :
    AppExceptionVal K V :=
  appException message ⟨some "ThrottlerException", some HttpStatus.TOO_MANY_REQUESTS⟩

/-- `bad-request.exception.ts`: code `'BadRequest'`, status
`HttpStatus.BAD_REQUEST`. -/
def badRequestException {K V : Type} (message : ExcMessage K V) :
    AppExceptionVal K V :=
  appException message ⟨some "BadRequest", some HttpStatus.BAD_REQUEST⟩

/-- One row of the repository's "Available Exception Classes" table
(developer guide, Exception Handling section). -/
structure ExceptionClassRow where
  name : String
  status : Nat
  code : String
deriving DecidableEq, Repr

/-- The complete "Available Exception Classes" table from the developer
guide: every exception class the repository makes available, with its HTTP
status and code. -/
def availableExceptionClasses : List ExceptionClassRow :=
  [ ⟨"BadRequestException", 400, "BadRequest"⟩,
    ⟨"UnauthenticatedException", 401, "Unauthenticated"⟩,
    ⟨"UnauthorizedException", 403, "Unauthorized"⟩,
    ⟨"ForbiddenException", 403, "Forbidden"⟩,
    ⟨"NotFoundException", 404, "NotFound"⟩,
    ⟨"NotAcceptableException", 406, "NotAcceptable"⟩,
    ⟨"UnprocessableException", 422, "ValidationError"⟩,
    ⟨"ThrottlerException", 429, "ThrottlerException"⟩ ]

/-! ## `MatchField` validator
(`apps/api/src/utils/validators/match-field.validator.ts`) -/

/-- A JavaScript primitive value as it reaches the validator (`value: any`);
numbers are modelled as integers. -/
inductive JsValue where
  | undef
  | nullv
  | bool (b : Bool)
  | num (n : Int)
  | str (s : String)
deriving DecidableEq, Repr

/-- JavaScript strict equality `===` on the modelled values: values of
different types are never strictly equal, values of the same type compare
by content. -/
def jsStrictEq : JsValue → JsValue → Bool
  | .undef, .undef => true
  | .nullv, .nullv => true
  | .bool a, .bool b => a == b
  | .num a, .num b => a == b
  | .str a, .str b => a == b
  | _, _ => false

/-- The `ValidationArguments` fields the validator reads: the validated
object (property access on a missing key yields `undefined`, so the object
is total), the decorated property's name, and the registered constraints. -/
structure ValidationArguments where
  object : String → JsValue
  property : String
  constraints : List String

/-- `MatchField`'s `validate`: reads the related property name from the
constraints (`const [relatedPropertyName] = args.constraints`) and returns
`value === (args.object as any)[relatedPropertyName]`. -/
def matchFieldValidate (value : JsValue) (args : ValidationArguments) : Bool :=
  let relatedPropertyName := args.constraints.headD ""
  jsStrictEq value (args.object relatedPropertyName)

/-- `MatchField`'s `defaultMessage`:
`` `${args.property} must match ${relatedPropertyName}` ``. -/
def matchFieldDefaultMessage (args : ValidationArguments) : String :=
  let relatedPropertyName := args.constraints.headD ""
  args.property ++ " must match " ++ relatedPropertyName

/-- `registerDecorator` is called with `constraints: [property]`: the
decorator factory `MatchField(property)` registers exactly the one-element
constraint list. -/
def matchFieldConstraints (property : String) : List String :=
  [property]

/-! ## Token pipeline
The `TokenService` and `EncryptionService` sources are not in the checkout;
everything below is modelled from the specification and the
authentication/services documentation. -/

/-- Modelled from the spec: the two static secrets of `EnvService.authConfig`
(`jwtSecret` for signing, `encryptionSecret` for the cryptr cipher), loaded
once at startup. -/
structure Secrets where
  jwtSecret : String
  encryptionSecret : String
deriving DecidableEq, Repr

/-- Modelled from the spec: the JWT payload `{ id, iat, exp }` — the claims
value carrying the subject id, issued-at and expiry timestamps (unix
seconds). -/
structure Payload where
  id : Int
  iat : Nat
  exp : Nat
deriving DecidableEq, Repr

/-- Modelled from the spec: the decrypted wire content — either an
arbitrary string that is not a signed JWT, or a signed JWT whose signature
symbolically records the signing secret and the payload it was computed
over (so verification succeeds exactly when the secret matches and the
payload is untampered). -/
inductive JwtWire where
  | garbage (s : String)
  | signed (payload : Payload) (sigSecret : String) (sigPayload : Payload)
deriving DecidableEq, Repr

/-- Modelled from the spec: a client-visible string — either an arbitrary
string that is no ciphertext, or a cryptr ciphertext symbolically recording
the encryption secret, the fresh random IV of that call, and the
plaintext. -/
inductive Wire where
  | garbage (s : String)
  | cipher (secret : String) (iv : Nat) (plain : JwtWire)
deriving DecidableEq, Repr

/-- Modelled from the spec: `EncryptionService.encrypt` — symmetric
encryption of a value under a secret with a fresh random IV per call. -/
def encrypt (secret : String) (iv : Nat) (value : JwtWire) : Wire :=
  .cipher secret iv value

/-- Modelled from the spec: `EncryptionService.decrypt` — returns the
plaintext when the input is a ciphertext under the same secret, and a
failure (`null`) on malformed input or a wrong key; it never throws. -/
def decrypt (secret : String) : Wire → Option JwtWire
  | .cipher k _ v => if k = secret then some v else none
  | .garbage _ => none

/-- Modelled from the spec: JWT signing — attaches to the payload a
signature computed with the signing secret over the serialized payload. -/
def signJwt (secret : String) (payload : Payload) : JwtWire :=
  .signed payload secret payload

/-- Modelled from the spec: JWT verification — succeeds with the payload
exactly when the input is a signed JWT whose signature was produced with
the same secret over the same payload; any mismatch or non-JWT input
fails. -/
def verifyJwt (secret : String) : JwtWire → Option Payload
  | .signed payload sigSecret sigPayload =>
      if sigSecret = secret ∧ sigPayload = payload then some payload else none
  | .garbage _ => none

/-- Modelled from the spec: the tagged result of `TokenService.decodeToken`
— `{isValid: true, decoded}` or `{isValid: false, error}`. -/
inductive DecodeResult where
  | valid (decoded : Payload)
  | invalid (error : String)
deriving DecidableEq, Repr

/-- The `isValid` tag of a decode result. -/
def DecodeResult.isValid : DecodeResult → Bool
  | .valid _ => true
  | .invalid _ => false

/-- The decoded subject id (`result.decoded.id`) when the result is valid. -/
def DecodeResult.decodedId : DecodeResult → Option Int
  | .valid p => some p.id
  | .invalid _ => none

/-- Modelled from the spec: the fixed token TTL — 7 days = 604800 unix
seconds. -/
def tokenTTL : Nat := 604800

/-- Modelled from the spec: `TokenService.signToken` — stamps
`iat = now` and `exp = now + tokenTTL`, signs the payload with the JWT
secret, then encrypts the signed JWT with the encryption secret under a
fresh IV. -/
def signToken (s : Secrets) (id : Int) (now : Nat) (iv : Nat) : Wire :=
  let payload : Payload := ⟨id, now, now + tokenTTL⟩
  encrypt s.encryptionSecret iv (signJwt s.jwtSecret payload)

/-- Modelled from the spec: `TokenService.decodeToken` — decrypt first (on
failure: invalid, "decryption failed"); then verify the signature (on
mismatch: invalid, "signature invalid"); then check expiry against the
current time (claims are valid only while `now < exp`; otherwise invalid,
"token expired"); else return the decoded claims. Total over inputs: every
failure yields a tagged invalid result. -/
def decodeToken (s : Secrets) (token : Wire) (now : Nat) : DecodeResult :=
  match decrypt s.encryptionSecret token with
  | none => .invalid "decryption failed"
  | some jwt =>
    match verifyJwt s.jwtSecret jwt with
    | none => .invalid "signature invalid"
    | some payload =>
      if payload.exp ≤ now then .invalid "token expired"
      else .valid payload

/-! ## Guard pipeline (`AuthGuard` / `RolesGuard`), modelled from the spec -/

/-- The `RolesEnum` of `src/constants/role.enum.ts` (`admin`, `user`). -/
inductive Role where
  | admin
  | user
deriving DecidableEq, Repr

/-- Modelled from the spec: the subject (user) attributes relevant to the
guard — id, role, verified flag. -/
structure Subject where
  id : Int
  role : Role
  verified : Bool
deriving DecidableEq, Repr

/-- Modelled from the spec: per-route metadata — public flag,
unauthenticated-only flag, required-role set (empty = any authenticated
subject passes), and whether the route requires a verified account. -/
structure RouteMeta where
  isPublic : Bool
  unauthOnly : Bool
  requiredRoles : List Role
  requireVerified : Bool
deriving DecidableEq, Repr

/-- The exception values the guard produces (string messages). -/
abbrev Exc := AppExceptionVal String String

/-- Modelled from the spec: the authenticator's outcome — proceed with an
optionally attached subject and raw decrypted token, or reject with an
exception. -/
inductive AuthOutcome where
  | authenticated (subject : Option Subject) (rawToken : Option JwtWire)
  | rejected (e : Exc)
deriving DecidableEq, Repr

/-- Modelled from the spec: the full authentication pipeline run on a
present token — decode it (any decode failure rejects `Unauthenticated`
with the generic sign-in message, never leaking the decode reason), load
the subject from the user store by the decoded id (absent rejects
`Unauthenticated`, "Account not found"), check the verified flag where the
route requires it (rejects `Unauthenticated`, "Your account is not
verified"), else attach the subject and the raw decrypted token. -/
def runPipeline (s : Secrets) (store : Int → Option Subject) (now : Nat)
    (meta : RouteMeta) (token : Wire) : AuthOutcome :=
  match decodeToken s token now with
  | .invalid _ =>
      .rejected (unauthenticatedException (.str "You need to sign in first."))
  | .valid payload =>
    match store payload.id with
    | none =>
        .rejected (unauthenticatedException (.str "Account not found"))
    | some subject =>
      if meta.requireVerified && !subject.verified then
        .rejected
          (unauthenticatedException (.str "Your account is not verified"))
      else .authenticated (some subject) (decrypt s.encryptionSecret token)

/-- Modelled from the spec: the `AuthGuard` — on a public route, proceed
with an absent subject when no token is present and run the pipeline
opportunistically when one is; on an unauthenticated-only route, reject
with `AlreadyAuthenticated` when a currently valid token is present and
proceed with no subject otherwise; on a protected route, reject
`Unauthenticated` when no token is present, else run the full pipeline. -/
def authenticate (s : Secrets) (store : Int → Option Subject) (now : Nat)
    (meta : RouteMeta) (token : Option Wire) : AuthOutcome :=
  if meta.isPublic then
    match token with
    | none => .authenticated none none
    | some t => runPipeline s store now meta t
  else if meta.unauthOnly then
    match token with
    | none => .authenticated none none
    | some t =>
      match decodeToken s t now with
      | .valid _ =>
          .rejected (appException (.str "Already authenticated")
            ⟨some "AlreadyAuthenticated", some HttpStatus.UNAUTHORIZED⟩)
      | .invalid _ => .authenticated none none
  else
    match token with
    | none =>
        .rejected
          (unauthenticatedException (.str "You need to sign in first."))
    | some t => runPipeline s store now meta t

/-- Modelled from the spec: the `RolesGuard` — given the route's declared
role set (empty = any authenticated subject passes) and the authenticated
subject, pass (`none`) or fail with `Unauthorized` ("Permission denied"). -/
def checkRoles (required : List Role) (subject : Subject) : Option Exc :=
  if required.isEmpty || required.contains subject.role then none
  else some (unauthorizedException (.str "Permission denied"))

/-! ## Theorems -/

/-- C1: decoding a freshly signed token round-trips — for every claims
value (subject id) and signing time, `decodeToken (signToken …)` returns
`isValid = true` and the decoded claims carry the same subject id, provided
the current time is before the token's expiry. -/
theorem signToken_decodeToken_roundTrip (s : Secrets) (id : Int)
    (now iv t : Nat) (h : t < now + tokenTTL) :
    (decodeToken s (signToken s id now iv) t).isValid = true ∧
    (decodeToken s (signToken s id now iv) t).decodedId = some id := by
  have hle : ¬ (now + tokenTTL ≤ t) := Nat.not_le.mpr h
  simp [decodeToken, signToken, encrypt, decrypt, signJwt, verifyJwt, hle,
    DecodeResult.isValid, DecodeResult.decodedId]

theorem signToken_decodeToken_roundTrip_witness :
    (decodeToken ⟨"jwt", "enc"⟩ (signToken ⟨"jwt", "enc"⟩ 42 0 0) 100).isValid
        = true ∧
    (decodeToken ⟨"jwt", "enc"⟩ (signToken ⟨"jwt", "enc"⟩ 42 0 0) 100).decodedId
        = some 42 :=
  signToken_decodeToken_roundTrip ⟨"jwt", "enc"⟩ 42 0 0 100 (by decide)

/-- C2: `decodeToken` is total — on every input that is not a properly
encrypted and correctly signed token under the system's secrets (malformed,
wrong-key, corrupted, or tampered input), it returns a tagged result with
`isValid = false` — one of the two pre-expiry failure tags — and never
throws. -/
theorem decodeToken_total_on_invalid (s : Secrets) (w : Wire) (now : Nat)
    (h : ¬ ∃ (p : Payload) (iv : Nat),
        w = Wire.cipher s.encryptionSecret iv
          (JwtWire.signed p s.jwtSecret p)) :
    (decodeToken s w now).isValid = false ∧
    (decodeToken s w now = .invalid "decryption failed" ∨
     decodeToken s w now = .invalid "signature invalid") := by
  cases w with
  | garbage msg =>
    simp [decodeToken, decrypt, DecodeResult.isValid]
  | cipher k iv v =>
    by_cases hk : k = s.encryptionSecret
    · subst hk
      cases v with
      | garbage msg =>
        simp [decodeToken, decrypt, verifyJwt, DecodeResult.isValid]
      | signed p ks kp =>
        by_cases hs : ks = s.jwtSecret ∧ kp = p
        · exact absurd ⟨p, iv, by rw [hs.1, hs.2]⟩ h
        · simp [decodeToken, decrypt, verifyJwt, hs, DecodeResult.isValid]
    · simp [decodeToken, decrypt, hk, DecodeResult.isValid]

theorem decodeToken_total_on_invalid_witness :
    (decodeToken ⟨"jwt", "enc"⟩ (Wire.garbage "not-a-token") 0).isValid
        = false ∧
    (decodeToken ⟨"jwt", "enc"⟩ (Wire.garbage "not-a-token") 0
        = .invalid "decryption failed" ∨
     decodeToken ⟨"jwt", "enc"⟩ (Wire.garbage "not-a-token") 0
        = .invalid "signature invalid") :=
  decodeToken_total_on_invalid ⟨"jwt", "enc"⟩ (Wire.garbage "not-a-token") 0
    (by rintro ⟨p, iv, hw⟩; cases hw)

/-- C3: token validation runs its stages in a fixed mandatory order —
decrypt first (failure tags "decryption failed"), then signature
verification (mismatch tags "signature invalid"), then the expiry check
(expired tags "token expired"); a claims value is returned valid only when
all three earlier stages succeeded; and the subject is loaded only after a
valid decode (on any decode failure the pipeline rejects without consulting
the user store). -/
theorem decodeToken_stage_order (s : Secrets) (w : Wire) (now : Nat) :
    (decrypt s.encryptionSecret w = none →
      decodeToken s w now = .invalid "decryption failed") ∧
    (∀ j, decrypt s.encryptionSecret w = some j →
      verifyJwt s.jwtSecret j = none →
      decodeToken s w now = .invalid "signature invalid") ∧
    (∀ j p, decrypt s.encryptionSecret w = some j →
      verifyJwt s.jwtSecret j = some p → p.exp ≤ now →
      decodeToken s w now = .invalid "token expired") ∧
    (∀ p, decodeToken s w now = .valid p →
      ∃ j, decrypt s.encryptionSecret w = some j ∧
        verifyJwt s.jwtSecret j = some p ∧ now < p.exp) ∧
    (∀ (store : Int → Option Subject) (meta : RouteMeta) (e : String),
      decodeToken s w now = .invalid e →
      runPipeline s store now meta w =
        .rejected (unauthenticatedException (.str "You need to sign in first."))) := by
  refine ⟨?_, ?_, ?_, ?_, ?_⟩
  · intro hd
    simp [decodeToken, hd]
  · intro j hd hv
    simp [decodeToken, hd, hv]
  · intro j p hd hv he
    simp [decodeToken, hd, hv, he]
  · intro p hp
    unfold decodeToken at hp
    cases hd : decrypt s.encryptionSecret w with
    | none => simp [hd] at hp
    | some j =>
      simp only [hd] at hp
      cases hv : verifyJwt s.jwtSecret j with
      | none => simp [hv] at hp
      | some q =>
        by_cases he : q.exp ≤ now
        · simp [hv, he] at hp
        · simp [hv, he] at hp
          subst hp
          exact ⟨j, rfl, hv, Nat.lt_of_not_le he⟩
  · intro store meta e he
    simp [runPipeline, he]

theorem decodeToken_stage_order_witness :
    decodeToken ⟨"jwt", "enc"⟩ (Wire.garbage "x") 0
        = .invalid "decryption failed" ∧
    decodeToken ⟨"jwt", "enc"⟩ (Wire.cipher "enc" 0 (JwtWire.garbage "y")) 0
        = .invalid "signature invalid" ∧
    decodeToken ⟨"jwt", "enc"⟩ (signToken ⟨"jwt", "enc"⟩ 1 0 0) 604800
        = .invalid "token expired" :=
  ⟨(decodeToken_stage_order ⟨"jwt", "enc"⟩ (Wire.garbage "x") 0).1 rfl,
   (decodeToken_stage_order ⟨"jwt", "enc"⟩
      (Wire.cipher "enc" 0 (JwtWire.garbage "y")) 0).2.1 _ rfl rfl,
   (decodeToken_stage_order ⟨"jwt", "enc"⟩
      (signToken ⟨"jwt", "enc"⟩ 1 0 0) 604800).2.2.1 _ _ rfl rfl (by decide)⟩

/-- C6: `signToken` stamps `issuedAt = now` and
`expiresAt = now + 604800` (a fixed 7-day TTL), and any token whose
`expiresAt` is in the past — even a properly signed and encrypted one —
decodes to `isValid = false`. -/
theorem signToken_ttl_and_expiry (s : Secrets) :
    (∀ (id : Int) (now iv : Nat),
      decodeToken s (signToken s id now iv) now
        = .valid ⟨id, now, now + 604800⟩) ∧
    (∀ (p : Payload) (iv t : Nat), p.exp < t →
      (decodeToken s
        (encrypt s.encryptionSecret iv (signJwt s.jwtSecret p)) t).isValid
        = false) := by
  constructor
  · intro id now iv
    have hle : ¬ (now + tokenTTL ≤ now) := by simp [tokenTTL]
    simp [decodeToken, signToken, encrypt, decrypt, signJwt, verifyJwt, hle,
      tokenTTL]
  · intro p iv t h
    simp [decodeToken, encrypt, decrypt, signJwt, verifyJwt,
      Nat.le_of_lt h, DecodeResult.isValid]

theorem signToken_ttl_and_expiry_witness :
    decodeToken ⟨"jwt", "enc"⟩ (signToken ⟨"jwt", "enc"⟩ 7 3 0) 3
        = .valid ⟨7, 3, 3 + 604800⟩ ∧
    (decodeToken ⟨"jwt", "enc"⟩
        (encrypt "enc" 0 (signJwt "jwt" ⟨1, 0, 5⟩)) 10).isValid = false :=
  ⟨(signToken_ttl_and_expiry ⟨"jwt", "enc"⟩).1 7 3 0,
   (signToken_ttl_and_expiry ⟨"jwt", "enc"⟩).2 ⟨1, 0, 5⟩ 0 10 (by decide)⟩

/-- C7: encryption is non-deterministic per call — signing identical claims
at the same time under distinct fresh IVs (the random component of the two
calls) produces different token strings. -/
theorem signToken_nondeterministic (s : Secrets) (id : Int)
    (now iv1 iv2 : Nat) (h : iv1 ≠ iv2) :
    signToken s id now iv1 ≠ signToken s id now iv2 := by
  intro hc
  unfold signToken encrypt at hc
  injection hc with h1 h2 h3
  exact h h2

theorem signToken_nondeterministic_witness :
    signToken ⟨"jwt", "enc"⟩ 1 0 0 ≠ signToken ⟨"jwt", "enc"⟩ 1 0 1 :=
  signToken_nondeterministic ⟨"jwt", "enc"⟩ 1 0 0 1 (by decide)

/-- Helper: every rejection of `runPipeline` is an `Unauthenticated`
exception with status 401. -/
theorem runPipeline_rejected_unauthenticated (s : Secrets)
    (store : Int → Option Subject) (now : Nat) (meta : RouteMeta) (t : Wire)
    (e : Exc) (h : runPipeline s store now meta t = .rejected e) :
    e.code = "Unauthenticated" ∧ e.status = HttpStatus.UNAUTHORIZED := by
  unfold runPipeline at h
  split at h
  · injection h with he
    subst he
    exact ⟨rfl, rfl⟩
  · split at h
    · injection h with he
      subst he
      exact ⟨rfl, rfl⟩
    · split at h
      · injection h with he
        subst he
        exact ⟨rfl, rfl⟩
      · cases h

/-- Helper: every rejection of `authenticate` carries status 401, and its
code is `Unauthenticated` except on an unauthenticated-only route, where it
is `AlreadyAuthenticated`. -/
theorem authenticate_rejected_classification (s : Secrets)
    (store : Int → Option Subject) (now : Nat) (meta : RouteMeta)
    (token : Option Wire) (e : Exc)
    (h : authenticate s store now meta token = .rejected e) :
    e.status = HttpStatus.UNAUTHORIZED ∧
    (e.code = "Unauthenticated" ∨
      (meta.unauthOnly = true ∧ e.code = "AlreadyAuthenticated")) := by
  unfold authenticate at h
  cases hpub : meta.isPublic with
  | true =>
    rw [hpub] at h
    simp only [if_true] at h
    cases token with
    | none => cases h
    | some t =>
      have hr := runPipeline_rejected_unauthenticated s store now meta t e h
      exact ⟨hr.2, Or.inl hr.1⟩
  | false =>
    rw [hpub] at h
    simp only [Bool.false_eq_true, if_false] at h
    cases huo : meta.unauthOnly with
    | true =>
      rw [huo] at h
      simp only [if_true] at h
      cases token with
      | none => cases h
      | some t =>
        cases hd : decodeToken s t now with
        | valid p =>
          simp only [hd] at h
          injection h with he
          subst he
          exact ⟨rfl, Or.inr ⟨rfl, rfl⟩⟩
        | invalid err =>
          simp [hd] at h
    | false =>
      rw [huo] at h
      simp only [Bool.false_eq_true, if_false] at h
      cases token with
      | none =>
        injection h with he
        subst he
        exact ⟨rfl, Or.inl rfl⟩
      | some t =>
        have hr := runPipeline_rejected_unauthenticated s store now meta t e h
        exact ⟨hr.2, Or.inl hr.1⟩

/-- C4: every authentication failure — missing, invalid or expired token,
unverified account, or account not found — is reported with error code
`Unauthenticated` and HTTP status 401 (both by the exception class itself
and by every guard rejection outside unauthenticated-only routes), and
every role-mismatch failure is reported with error code `Unauthorized` and
HTTP status 403. -/
theorem auth_failure_error_taxonomy :
    (∀ (K V : Type) (m : ExcMessage K V),
      (unauthenticatedException m).body.code = "Unauthenticated" ∧
      (unauthenticatedException m).status = 401) ∧
    (∀ (K V : Type) (m : ExcMessage K V),
      (unauthorizedException m).body.code = "Unauthorized" ∧
      (unauthorizedException m).status = 403) ∧
    (∀ (s : Secrets) (store : Int → Option Subject) (now : Nat)
        (meta : RouteMeta) (token : Option Wire) (e : Exc),
      meta.unauthOnly = false →
      authenticate s store now meta token = .rejected e →
      e.code = "Unauthenticated" ∧ e.status = 401) ∧
    (∀ (required : List Role) (subject : Subject) (e : Exc),
      checkRoles required subject = some e →
      e.code = "Unauthorized" ∧ e.status = 403) := by
  refine ⟨fun K V m => ⟨rfl, rfl⟩, fun K V m => ⟨rfl, rfl⟩, ?_, ?_⟩
  · intro s store now meta token e hu h
    have hc := authenticate_rejected_classification s store now meta token e h
    rcases hc.2 with hcode | ⟨huo, _⟩
    · exact ⟨hcode, hc.1⟩
    · rw [hu] at huo
      cases huo
  · intro required subject e h
    unfold checkRoles at h
    split at h
    · cases h
    · injection h with he
      subst he
      exact ⟨rfl, rfl⟩

theorem auth_failure_error_taxonomy_witness :
    ((unauthenticatedException (K := String) (V := String)
        (.str "You need to sign in first.")).body.code = "Unauthenticated" ∧
      (unauthenticatedException (K := String) (V := String)
        (.str "You need to sign in first.")).status = 401) ∧
    ((unauthorizedException (K := String) (V := String)
        (.str "Permission denied")).body.code = "Unauthorized" ∧
      (unauthorizedException (K := String) (V := String)
        (.str "Permission denied")).status = 403) ∧
    ((unauthenticatedException (.str "You need to sign in first.") : Exc).code
        = "Unauthenticated" ∧
      (unauthenticatedException (.str "You need to sign in first.") : Exc).status
        = 401) ∧
    ((unauthorizedException (.str "Permission denied") : Exc).code
        = "Unauthorized" ∧
      (unauthorizedException (.str "Permission denied") : Exc).status = 403) :=
  ⟨auth_failure_error_taxonomy.1 String String (.str "You need to sign in first."),
   auth_failure_error_taxonomy.2.1 String String (.str "Permission denied"),
   auth_failure_error_taxonomy.2.2.1 ⟨"jwt", "enc"⟩ (fun _ => none) 0
     ⟨false, false, [], false⟩ none
     (unauthenticatedException (.str "You need to sign in first.")) rfl rfl,
   auth_failure_error_taxonomy.2.2.2 [Role.admin] ⟨1, Role.user, true⟩
     (unauthorizedException (.str "Permission denied")) rfl⟩

/-- C5: on a route marked public the authenticator never rejects for an
absent token — with no token the request proceeds authenticated with an
absent subject, and with a valid token present the full pipeline runs
opportunistically and attaches the resolved subject (and the raw decrypted
token). -/
theorem public_route_opportunistic (s : Secrets)
    (store : Int → Option Subject) (now : Nat) (meta : RouteMeta)
    (hpub : meta.isPublic = true) :
    authenticate s store now meta none = .authenticated none none ∧
    (∀ (t : Wire) (p : Payload) (subject : Subject),
      decodeToken s t now = .valid p →
      store p.id = some subject →
      (meta.requireVerified = true → subject.verified = true) →
      authenticate s store now meta (some t) =
        .authenticated (some subject) (decrypt s.encryptionSecret t)) := by
  constructor
  · simp [authenticate, hpub]
  · intro t p subject hd hs hv
    have hcond : (meta.requireVerified && !subject.verified) = false := by
      cases hrv : meta.requireVerified
      · simp
      · simp [hv hrv]
    simp [authenticate, hpub, runPipeline, hd, hs, hcond]

theorem public_route_opportunistic_witness :
    authenticate ⟨"jwt", "enc"⟩
        (fun i => if i = 42 then some ⟨42, Role.user, true⟩ else none) 1
        ⟨true, false, [], false⟩ none = .authenticated none none ∧
    authenticate ⟨"jwt", "enc"⟩
        (fun i => if i = 42 then some ⟨42, Role.user, true⟩ else none) 1
        ⟨true, false, [], false⟩ (some (signToken ⟨"jwt", "enc"⟩ 42 0 0)) =
      .authenticated (some ⟨42, Role.user, true⟩)
        (decrypt "enc" (signToken ⟨"jwt", "enc"⟩ 42 0 0)) :=
  ⟨(public_route_opportunistic ⟨"jwt", "enc"⟩
      (fun i => if i = 42 then some ⟨42, Role.user, true⟩ else none) 1
      ⟨true, false, [], false⟩ rfl).1,
   (public_route_opportunistic ⟨"jwt", "enc"⟩
      (fun i => if i = 42 then some ⟨42, Role.user, true⟩ else none) 1
      ⟨true, false, [], false⟩ rfl).2 (signToken ⟨"jwt", "enc"⟩ 42 0 0)
      ⟨42, 0, 604800⟩ ⟨42, Role.user, true⟩ (by decide) (by decide) (by simp)⟩

/-- C8 counterexample: the repository's exception taxonomy (the complete
"Available Exception Classes" table) contains no class with code
`ServiceUnavailable` and none with HTTP status 503, so an aborted
user-store lookup cannot be reported that way. -/
theorem no_serviceUnavailable_in_taxonomy :
    availableExceptionClasses.all
      (fun r => !(r.code == "ServiceUnavailable") && !(r.status == 503))
      = true := by
  decide

/-- C8 (amended): the repository defines no `ServiceUnavailable`/503
failure class — every available exception class and every rejection the
authenticator can produce carries a code other than `ServiceUnavailable`
and a status other than 503, so a user-store failure is not distinguished
as a retryable 503. -/
theorem rejections_never_serviceUnavailable :
    (∀ r ∈ availableExceptionClasses,
      r.code ≠ "ServiceUnavailable" ∧
      r.status ≠ HttpStatus.SERVICE_UNAVAILABLE) ∧
    (∀ (s : Secrets) (store : Int → Option Subject) (now : Nat)
        (meta : RouteMeta) (token : Option Wire) (e : Exc),
      authenticate s store now meta token = .rejected e →
      e.code ≠ "ServiceUnavailable" ∧
      e.status ≠ HttpStatus.SERVICE_UNAVAILABLE) := by
  constructor
  · decide
  · intro s store now meta token e h
    have hc := authenticate_rejected_classification s store now meta token e h
    constructor
    · rcases hc.2 with hcode | ⟨_, hcode⟩ <;> rw [hcode] <;> decide
    · rw [hc.1]
      decide

theorem rejections_never_serviceUnavailable_witness :
    ((⟨"UnauthenticatedException", 401, "Unauthenticated"⟩ : ExceptionClassRow).code
        ≠ "ServiceUnavailable" ∧
      (⟨"UnauthenticatedException", 401, "Unauthenticated"⟩ : ExceptionClassRow).status
        ≠ HttpStatus.SERVICE_UNAVAILABLE) ∧
    ((unauthenticatedException (.str "You need to sign in first.") : Exc).code
        ≠ "ServiceUnavailable" ∧
      (unauthenticatedException (.str "You need to sign in first.") : Exc).status
        ≠ HttpStatus.SERVICE_UNAVAILABLE) :=
  ⟨rejections_never_serviceUnavailable.1
      ⟨"UnauthenticatedException", 401, "Unauthenticated"⟩ (by decide),
   rejections_never_serviceUnavailable.2 ⟨"jwt", "enc"⟩ (fun _ => none) 0
      ⟨false, false, [], false⟩ none
      (unauthenticatedException (.str "You need to sign in first.")) rfl⟩

/-- C9: every `AppException`, for any message (string or field-error
record), produces a response body carrying exactly that message together
with an error code (the explicitly passed code when one is given), and when
constructed without explicit options it defaults to code
`InternalServerError` and HTTP status 500. -/
theorem appException_body_and_defaults :
    (∀ (K V : Type) (m : ExcMessage K V) (e : IAppError),
      (appException m e).body.message = m ∧
      (appException m e).body.code = e.code.getD "InternalServerError") ∧
    (∀ (K V : Type) (m : ExcMessage K V) (c : String) (st : Option Nat),
      (appException m ⟨some c, st⟩).body.code = c) ∧
    (∀ (K V : Type) (m : ExcMessage K V),
      (appExceptionDefault m).code = "InternalServerError" ∧
      (appExceptionDefault m).status = 500) :=
  ⟨fun _ _ _ _ => ⟨rfl, rfl⟩, fun _ _ _ _ _ => rfl, fun _ _ _ => ⟨rfl, rfl⟩⟩

/-- Helper: the modelled JavaScript strict equality agrees with equality of
modelled values. -/
theorem jsStrictEq_iff (a b : JsValue) : jsStrictEq a b = true ↔ a = b := by
  cases a <;> cases b <;> simp [jsStrictEq]

/-- C10: the `MatchField` validator passes exactly when the decorated
property's value is strictly equal to the value of the named related
property on the same object — for every object and every value, including
`undefined` — and its default failure message is
"(property) must match (relatedProperty)". -/
theorem matchField_iff_and_message (value : JsValue)
    (obj : String → JsValue) (property related : String) :
    (matchFieldValidate value
        ⟨obj, property, matchFieldConstraints related⟩ = true ↔
      value = obj related) ∧
    matchFieldDefaultMessage ⟨obj, property, matchFieldConstraints related⟩
      = property ++ " must match " ++ related := by
  constructor
  · simpa [matchFieldValidate, matchFieldConstraints] using
      jsStrictEq_iff value (obj related)
  · rfl

end Omnistore
